import Mathlib

/-!
Verification of the keyword perfect-hash-table demo.

The repository consists of a build script (`build.rs`) that emits a static
`phf::Map` from five keyword strings to variants of the `Keyword2` enum, and
a program (`src/main.rs`) whose `main` asserts that looking up `"loop"` in
that map yields `Some(&Keyword2::Loop)`.

We shallowly embed the table as an association list, the phf build step as a
function that fails on a duplicate key (mirroring the panic of
`phf_codegen::Map::build`), and `main` as an `Except`-valued computation
(`ok` = normal exit, `error msg` = abnormal termination with a diagnostic).
-/

namespace GlobalData

/-- The `Keyword2` enum from `src/main.rs`: a closed set of five variants. -/
inductive Keyword2 where
  | Loop
  | Continue
  | Break
  | Fn
  | Extern
deriving DecidableEq, Repr, Fintype

/-- The five (key, value) entries passed to `phf_codegen::Map::new().entry(...)`
in `build_phf` in `build.rs`, in source order. -/
def build_phf_entries : List (String × Keyword2) :=
  [("loop", Keyword2.Loop),
   ("continue", Keyword2.Continue),
   ("break", Keyword2.Break),
   ("fn", Keyword2.Fn),
   ("extern", Keyword2.Extern)]

/-- The keys of an entry list. -/
def keysOf (es : List (String × Keyword2)) : List String :=
  es.map Prod.fst

/-- `phf_codegen::Map::build`: constructs the table from the accumulated
entries, but panics at build time when two entries share a key.  We model the
panic as `Except.error`, and a successful build as the entry list itself. -/
def build_phf (es : List (String × Keyword2)) :
    Except String (List (String × Keyword2)) :=
  if (keysOf es).Nodup then Except.ok es else Except.error "duplicate key"

/-- `phf::Map::get`: exact-match lookup of a string key, yielding the
associated value or `none`. -/
def phfGet (es : List (String × Keyword2)) (k : String) : Option Keyword2 :=
  match es with
  | [] => none
  | (k2, v) :: rest => if k2 = k then some v else phfGet rest k

/-- The generated `static KEYWORDS: phf::Map<&str, Keyword2>` artifact
(`phf.rs`), included into the program: the successfully built table over the
five hardcoded entries. -/
def KEYWORDS : List (String × Keyword2) :=
  build_phf_entries

/-- A lookup against a table, with the table threaded through as state: the
result paired with the table after the call.  `phf::Map::get` takes `&self`,
so the table is returned unchanged. -/
def lookupSt (t : List (String × Keyword2)) (k : String) :
    Option Keyword2 × List (String × Keyword2) :=
  (phfGet t k, t)

/-- `main` from `src/main.rs`, parametrized by the included table:
`assert_eq!(KEYWORDS.get("loop"), Some(&Keyword2::Loop))`.  A passing
assertion is a normal exit; a failing one aborts with a diagnostic. -/
def mainWith (t : List (String × Keyword2)) : Except String Unit :=
  if phfGet t "loop" = some Keyword2.Loop then Except.ok ()
  else Except.error "assertion failed: KEYWORDS.get(loop) == Some(Keyword2::Loop)"

/-- The program as shipped: `main` run against the generated `KEYWORDS`. -/
def main : Except String Unit :=
  mainWith KEYWORDS

/-- A block of a documentation file: plain text or a fenced code example. -/
inductive DocBlock where
  | text (s : String)
  | fenced (code : String)
deriving DecidableEq

/-- Whether a documentation block is a fenced code example. -/
def DocBlock.isFenced : DocBlock → Bool
  | .fenced _ => true
  | .text _ => false

/-- Modelled from the spec: `skeptic::generate_doc_tests` (the `skeptic`
crate is external, not under the repository's sources) scans the
documentation file (`README.md`) for embedded code examples and turns each
fenced code example into an executable test; the tests produced are exactly
the fenced blocks' contents, one test per block, in order. -/
def generate_doc_tests (doc : List DocBlock) : List String :=
  doc.filterMap fun b =>
    match b with
    | .fenced c => some c
    | .text _ => none

/-! ## General lemmas about the embedding -/

/-- Exact-match lookup of a key absent from the key column yields `none`. -/
theorem phfGet_eq_none_of_not_mem (es : List (String × Keyword2)) (k : String)
    (h : k ∉ keysOf es) : phfGet es k = none := by
  induction es with
  | nil => rfl
  | cons p rest ih =>
    obtain ⟨k2, v⟩ := p
    simp only [keysOf, List.map_cons, List.mem_cons, not_or] at h
    simp only [phfGet]
    rw [if_neg fun he => h.1 he.symm]
    exact ih h.2

/-! ## The claims -/

/-- Claim C1: looking up the key "loop" in the generated table returns
`Some(Keyword::Loop)`, and the program's startup self-check (`main`) performs
exactly this lookup and confirms this result (exiting normally). -/
theorem lookup_loop_self_check :
    phfGet KEYWORDS "loop" = some Keyword2.Loop ∧
    main = mainWith KEYWORDS ∧ main = Except.ok () :=
  ⟨by decide, rfl, rfl⟩

/-- Claim C2: for every one of the five registered keys, lookup in the table
returns `some` of the corresponding `Keyword2` value — never an absent
result. -/
theorem lookup_all_five_keys :
    phfGet KEYWORDS "loop" = some Keyword2.Loop ∧
    phfGet KEYWORDS "continue" = some Keyword2.Continue ∧
    phfGet KEYWORDS "break" = some Keyword2.Break ∧
    phfGet KEYWORDS "fn" = some Keyword2.Fn ∧
    phfGet KEYWORDS "extern" = some Keyword2.Extern := by
  decide

/-- Claim C3: for every string that is not one of the five registered keys,
lookup returns the explicit absent result `none` — never a `Keyword2` value
and, the result being an ordinary `Option`, never an error. -/
theorem lookup_unregistered_none (s : String) (h : s ∉ keysOf KEYWORDS) :
    phfGet KEYWORDS s = none :=
  phfGet_eq_none_of_not_mem KEYWORDS s h

/-- Witness for C3 at the concrete non-keys `"LOOP"` (different casing) and
`""` (the empty string). -/
theorem lookup_unregistered_none_witness :
    ("LOOP" ∉ keysOf KEYWORDS ∧ phfGet KEYWORDS "LOOP" = none) ∧
    ("" ∉ keysOf KEYWORDS ∧ phfGet KEYWORDS "" = none) :=
  ⟨⟨by decide, lookup_unregistered_none "LOOP" (by decide)⟩,
   ⟨by decide, lookup_unregistered_none "" (by decide)⟩⟩

/-- Claim C4: the generated table has exactly five entries, its keys are
pairwise distinct, and its entry count equals the cardinality of the
`Keyword2` domain. -/
theorem table_exactly_five_nodup :
    KEYWORDS.length = 5 ∧ (keysOf KEYWORDS).Nodup ∧
    KEYWORDS.length = Fintype.card Keyword2 := by
  decide

/-- Claim C5: lookup is deterministic and side-effect free (the table state
is unchanged by a lookup), idempotent (a repeated lookup from the resulting
state returns the same result), and total (for every string it yields either
a present or an absent result). -/
theorem lookup_pure_total_idempotent (t : List (String × Keyword2)) (k : String) :
    (lookupSt t k).2 = t ∧
    (lookupSt (lookupSt t k).2 k).1 = (lookupSt t k).1 ∧
    ((phfGet t k).isSome = true ∨ phfGet t k = none) := by
  refine ⟨rfl, rfl, ?_⟩
  cases phfGet t k
  · exact Or.inr rfl
  · exact Or.inl rfl

/-- Witness for C5 at the shipped table and the key "loop". -/
theorem lookup_pure_total_idempotent_witness :
    (lookupSt KEYWORDS "loop").2 = KEYWORDS ∧
    (lookupSt (lookupSt KEYWORDS "loop").2 "loop").1 =
      (lookupSt KEYWORDS "loop").1 ∧
    ((phfGet KEYWORDS "loop").isSome = true ∨ phfGet KEYWORDS "loop" = none) :=
  lookup_pure_total_idempotent KEYWORDS "loop"

/-- Claim C6: for any included table, the process exits successfully exactly
when the self-check lookup of "loop" yields `Loop`; when it does not, the
process terminates abnormally with a diagnostic message. -/
theorem exit_iff_self_check (t : List (String × Keyword2)) :
    (mainWith t = Except.ok () ↔ phfGet t "loop" = some Keyword2.Loop) ∧
    (phfGet t "loop" ≠ some Keyword2.Loop →
      mainWith t =
        Except.error "assertion failed: KEYWORDS.get(loop) == Some(Keyword2::Loop)") := by
  constructor
  · constructor
    · intro h
      by_contra hc
      simp [mainWith, hc] at h
    · intro h
      simp [mainWith, h]
  · intro h
    simp [mainWith, h]

/-- Witness for C6: the shipped table passes the self-check and exits
normally; an empty table fails it and aborts with the diagnostic. -/
theorem exit_iff_self_check_witness :
    (mainWith KEYWORDS = Except.ok () ↔
      phfGet KEYWORDS "loop" = some Keyword2.Loop) ∧
    mainWith [] =
      Except.error "assertion failed: KEYWORDS.get(loop) == Some(Keyword2::Loop)" :=
  ⟨(exit_iff_self_check KEYWORDS).1,
   (exit_iff_self_check []).2 (by decide)⟩

/-- Claim C7: if two entries given to the table builder share the same key,
construction fails (the build step yields an error, so no table is produced
and no lookup against it can ever occur). -/
theorem duplicate_key_build_fails (es : List (String × Keyword2))
    (i j : ℕ) (hi : i < es.length) (hj : j < es.length) (hij : i ≠ j)
    (hkey : es[i].1 = es[j].1) :
    build_phf es = Except.error "duplicate key" := by
  have hi2 : i < (keysOf es).length := by simpa [keysOf] using hi
  have hj2 : j < (keysOf es).length := by simpa [keysOf] using hj
  have hnd : ¬ (keysOf es).Nodup := by
    intro hn
    have h1 : (keysOf es)[i] = (keysOf es)[j] := by
      simpa [keysOf] using hkey
    exact hij (hn.getElem_inj_iff.1 h1)
  simp [build_phf, hnd]

/-- Witness for C7: two entries both keyed "loop" make the build fail. -/
theorem duplicate_key_build_fails_witness :
    build_phf [("loop", Keyword2.Loop), ("loop", Keyword2.Break)] =
      Except.error "duplicate key" :=
  duplicate_key_build_fails
    [("loop", Keyword2.Loop), ("loop", Keyword2.Break)]
    0 1 (by decide) (by decide) (by decide) (by decide)

/-- The number of generated tests equals the number of fenced blocks. -/
theorem generate_doc_tests_length (doc : List DocBlock) :
    (generate_doc_tests doc).length =
      (doc.filter DocBlock.isFenced).length := by
  induction doc with
  | nil => rfl
  | cons b rest ih =>
    cases b with
    | text s =>
      simpa [generate_doc_tests, DocBlock.isFenced, List.filter] using ih
    | fenced c =>
      simpa [generate_doc_tests, DocBlock.isFenced, List.filter] using ih

/-- Claim C8 (modelled from the spec, the `skeptic` crate being external):
every fenced code example in the documentation file is among the generated
tests, and the generated tests are exactly the fenced examples — one
independent test per fenced block. -/
theorem doc_tests_cover_fenced (doc : List DocBlock) (code : String)
    (h : DocBlock.fenced code ∈ doc) :
    code ∈ generate_doc_tests doc ∧
    (generate_doc_tests doc).length =
      (doc.filter DocBlock.isFenced).length := by
  constructor
  · exact List.mem_filterMap.2 ⟨DocBlock.fenced code, h, rfl⟩
  · exact generate_doc_tests_length doc

/-- Witness for C8 on a concrete two-block document. -/
theorem doc_tests_cover_fenced_witness :
    DocBlock.fenced "assert!(true);" ∈
      [DocBlock.text "intro", DocBlock.fenced "assert!(true);"] ∧
    ("assert!(true);" ∈ generate_doc_tests
        [DocBlock.text "intro", DocBlock.fenced "assert!(true);"] ∧
      (generate_doc_tests
        [DocBlock.text "intro", DocBlock.fenced "assert!(true);"]).length =
      (([DocBlock.text "intro",
         DocBlock.fenced "assert!(true);"]).filter DocBlock.isFenced).length) :=
  ⟨by decide,
   doc_tests_cover_fenced
     [DocBlock.text "intro", DocBlock.fenced "assert!(true);"]
     "assert!(true);" (by decide)⟩

/-- Claim C9: the key-to-keyword mapping is a bijection onto the `Keyword2`
domain — each of the five variants appears as the value of exactly one entry
of the table. -/
theorem values_bijective :
    ∀ kw : Keyword2, (KEYWORDS.filter fun p => p.2 = kw).length = 1 := by
  decide

/-- Claim C10: with the table as actually generated, the self-check can
never fail — `main` evaluates to a successful exit, so the failure branch is
unreachable. -/
theorem main_always_succeeds :
    main = Except.ok () ∧ ∀ msg : String, main ≠ Except.error msg := by
  refine ⟨rfl, fun msg h => ?_⟩
  rw [show main = Except.ok () from rfl] at h
  exact Except.noConfusion h

/-- Witness for C10 at a concrete diagnostic string. -/
theorem main_always_succeeds_witness :
    main = Except.ok () ∧ main ≠ Except.error "assertion failed" :=
  ⟨main_always_succeeds.1, main_always_succeeds.2 "assertion failed"⟩

end GlobalData
